import Mathlib

/-!
Shallow embedding of the document/session state machine implemented by
`KnobScripterWidget` in `src/KnobScripter/knob_scripter.py`, together with
theorems settling the frozen claims about it.

Modelling conventions:
* Python dicts keyed by strings become association lists with unique keys,
  written with `lookupAssoc` / `updateAssoc` / `eraseAssoc` (dict read,
  replace-or-append assignment, and `del`).
* The file system relevant to one script is the pair of optional contents
  of `<script>.py` and `<script>.py.autosave` (`ScriptFS`); a whole folder
  is its list of file names where only names matter.
* Qt message boxes become explicit `reply` parameters (`true` = Yes);
  each embedded operation also reports whether it requested confirmation.
* UI-only side effects (window titles, dropdown item decorations such as
  the `(*)` suffix, scrollbar positions, focus) are elided; every piece of
  state the claims mention is kept.
-/

namespace KnobScripter

/-- Dict read: first binding of the key, if any. -/
def lookupAssoc {α : Type} : List (String × α) → String → Option α
  | [], _ => none
  | (k', v) :: rest, k => if k' = k then some v else lookupAssoc rest k

/-- Dict assignment `d[k] = v`: replace the binding if present, else append. -/
def updateAssoc {α : Type} : List (String × α) → String → α → List (String × α)
  | [], k, v => [(k, v)]
  | (k', v') :: rest, k, v =>
      if k' = k then (k, v) :: rest else (k', v') :: updateAssoc rest k v

/-- Dict deletion `del d[k]`: drop the first binding of the key. -/
def eraseAssoc {α : Type} : List (String × α) → String → List (String × α)
  | [], _ => []
  | (k', v') :: rest, k => if k' = k then rest else (k', v') :: eraseAssoc rest k

/-- One knob of a node: its name, its declared class (`knob.Class()`), and the
text it currently stores (read back by `value()` / `getValue()`). -/
structure Knob where
  name : String
  klass : String
  value : String
deriving DecidableEq, Repr

/-- A Nuke node as the embedding sees it: its class (`node.Class()`) and its
knobs. `node.knob(name)` is `Node.knob`. -/
structure Node where
  nodeClass : String
  knobs : List Knob
deriving DecidableEq, Repr

/-- Embedding of `node.knob(name)`: the node's knob of that name, if any. -/
def Node.knob (n : Node) (name : String) : Option Knob :=
  n.knobs.find? (fun k => k.name = name)

/-- Embedding of the `node.knobs()` membership test used by `knobLanguage`. -/
def Node.hasKnob (n : Node) (name : String) : Bool :=
  (n.knob name).isSome

/-- Embedding of `is_blink_knob` (module level, lines 76-83): the knob is named
`kernelSource` and its node's class is `BlinkScript`. -/
def is_blink_knob (node : Node) (kn : String) : Bool :=
  kn ∈ ["kernelSource"] && node.nodeClass ∈ ["BlinkScript"]

/-- Embedding of `self.defaultKnobs` (lines 138-140): the lifecycle-callback knob names. -/
def defaultKnobs : List String :=
  ["knobChanged", "onCreate", "onScriptLoad", "onScriptSave", "onScriptClose",
   "onDestroy", "updateUI", "autolabel", "beforeRender", "beforeFrameRender",
   "afterFrameRender", "afterRender"]

/-- Embedding of `self.python_knob_classes` (line 141). -/
def python_knob_classes : List String :=
  ["PyScript_Knob", "PythonCustomKnob"]

/-- Embedding of `KnobScripterWidget.knobLanguage` (lines 844-853): guess the code
language of a knob from its name, the node class and the knob class. -/
def knobLanguage (node : Node) (knobName : String) : Option String :=
  match node.knob knobName with
  | none => none
  | some k =>
      if knobName = "kernelSource" ∧ node.nodeClass = "BlinkScript" then
        some "blink"
      else if knobName ∈ defaultKnobs ∨ k.klass ∈ python_knob_classes then
        some "python"
      else
        none

/-- Embedding of `KnobScripterWidget.getKnobValue` (lines 796-808): read the knob's
relevant text. Both host accessors (`value()` for python knobs,
`getValue()` for blinkscript) read the single text the knob stores, so the
embedding returns the stored text in either branch; the lookup is `none`
when the knob does not exist (the Python code would raise there). -/
def getKnobValue (node : Node) (knob : String) : Option String :=
  if knob = "kernelSource" ∧ node.nodeClass = "BlinkScript" then
    (node.knob knob).map Knob.value
  else
    (node.knob knob).map Knob.value

/-- Host-side effect of writing a knob: both write paths of `saveKnobValue`
(the `nuke.tcl knob ...` call for blinkscript and `setValue` otherwise)
store the editor text as the knob's new value. Writing to an absent knob
raises in Python; the embedding leaves the node unchanged there (that path
is never reached on the success branches modelled below). -/
def Node.setKnobValue (n : Node) (name : String) (v : String) : Node :=
  { n with
    knobs := n.knobs.map (fun k => if k.name = name then { k with value := v } else k) }

/-- Widget state: the fields of `KnobScripterWidget` the claims are about.
`node` is `none` once the bound node has been deleted (`self.node` tests
falsy). `scriptBacking` is ghost state for the statements only: the
content of the current script's canonical file as of the last load/save
(the document's last-known backing value in script mode); editor-only
operations never touch it. `hostModified` records the host's own
document-modified flag (`nuke.tcl "modified 1"`). -/
structure KS where
  nodeMode : Bool
  node : Option Node
  knob : String
  dropdownKnob : String
  unsavedKnobs : List (String × String)
  modifiedKnobs : List String
  current_knob_modified : Bool
  current_script_modified : Bool
  toAutosave : Bool
  bufferText : String
  scriptBacking : String
  hostModified : Bool
deriving Repr

/-- Embedding of `self.getKnobValue(k)` on the widget: reads through the
possibly-deleted node. -/
def KS.getKnob (s : KS) (k : String) : Option String :=
  s.node.bind (fun n => getKnobValue n k)

/-- Set-insert into `self.modifiedKnobs` (a Python `set`). -/
def insertSet (l : List String) (x : String) : List String :=
  if x ∈ l then l else l ++ [x]

/-- Embedding of `KnobScripterWidget.setKnobModified` (lines 811-842): adds or
discards the knob in `modifiedKnobs`; with `changeTitle` it also records
the flag in `current_knob_modified`. The window-title and dropdown-label
edits are UI only and elided. -/
def setKnobModified (s : KS) (modified : Bool) (knob : String) (changeTitle : Bool) : KS :=
  let kb := if knob = "" then s.knob else knob
  let s :=
    { s with
      modifiedKnobs :=
        if modified then insertSet s.modifiedKnobs kb
        else s.modifiedKnobs.filter (fun x => x ≠ kb) }
  if changeTitle then { s with current_knob_modified := modified } else s

/-- Embedding of `KnobScripterWidget.setScriptModified` (lines 1510-1527):
records the flag in `current_script_modified`; the window-title and
dropdown-label edits are UI only and elided. -/
def setScriptModified (s : KS) (modified : Bool) : KS :=
  { s with current_script_modified := modified }

/-- Embedding of `KnobScripterWidget.setModified` (lines 1906-1914), the slot
connected to the editor's `textChanged` signal (line 371). In node mode it
raises the knob-modified flag only when it was clear and the knob's current
value differs from the editor text; when the knob (or node) no longer
exists, `self.getKnobValue` raises out of the slot before any flag is
touched, so that path leaves the state unchanged. In script mode it raises
the script-modified flag unconditionally and schedules an autosave. It
never clears either flag. -/
def setModified (s : KS) : KS :=
  let s :=
    if s.nodeMode then
      if ¬ s.current_knob_modified then
        match s.getKnob s.knob with
        | none => s
        | some v => if v ≠ s.bufferText then setKnobModified s true "" true else s
      else s
    else if ¬ s.current_script_modified then
      setScriptModified s true
    else s
  if ¬ s.nodeMode then { s with toAutosave := true } else s

/-- One user buffer mutation: the editor text changes and the `textChanged`
signal synchronously runs `setModified`. -/
def mutateBuffer (s : KS) (t : String) : KS :=
  setModified { s with bufferText := t }

/-- Dirty flag of the currently open document, per mode. -/
def KS.dirty (s : KS) : Bool :=
  if s.nodeMode then s.current_knob_modified else s.current_script_modified

/-- Outcome of `saveKnobValue`: the new widget state, whether a confirmation
dialog was raised, whether the knob was written, and whether the operation
returned early (missing knob, or the user declined). -/
structure SaveKnobResult where
  state : KS
  confirmRequested : Bool
  wrote : Bool
  aborted : Bool
deriving Repr

/-- Commit phase of `saveKnobValue` (lines 709-718): write the editor text to
the knob (blinkscript tcl path and `setValue` path both store the text),
clear the knob-modified flag for it, mark the host document modified, and
drop the knob's `unsavedKnobs` entry if present. -/
def saveKnobValueCommit (s : KS) (dv edited : String) : KS :=
  let s := { s with node := s.node.map (fun n => n.setKnobValue dv edited) }
  let s := setKnobModified s false dv true
  let s := { s with hostModified := true }
  if (lookupAssoc s.unsavedKnobs s.knob).isSome then
    { s with unsavedKnobs := eraseAssoc s.unsavedKnobs s.knob }
  else s

/-- Embedding of `KnobScripterWidget.saveKnobValue` (lines 681-719). The
freshly-read knob value is compared against the editor text; with `check`
and a difference, a Yes/No confirmation is raised and No returns without
writing. The `try`/`except` around the read becomes the `none` branch. -/
def saveKnobValue (s : KS) (check : Bool) (reply : Bool) : SaveKnobResult :=
  let dv := s.dropdownKnob
  match s.getKnob dv with
  | none => ⟨s, false, false, true⟩
  | some obtained =>
      let s := { s with knob := dv }
      let edited := s.bufferText
      if check ∧ obtained ≠ edited then
        if reply then ⟨saveKnobValueCommit s dv edited, true, true, false⟩
        else ⟨s, true, false, true⟩
      else ⟨saveKnobValueCommit s dv edited, false, true, false⟩

/-- Embedding of `KnobScripterWidget.loadAllKnobValues` (lines 665-679): with
at least one entry in `unsavedKnobs` a Yes/No confirmation is raised and No
returns unchanged; otherwise the whole `unsavedKnobs` dict is discarded.
Returns the new state and whether a confirmation was requested. -/
def loadAllKnobValues (s : KS) (reply : Bool) : KS × Bool :=
  if 1 ≤ s.unsavedKnobs.length then
    if reply then ({ s with unsavedKnobs := [] }, true)
    else (s, true)
  else ({ s with unsavedKnobs := [] }, false)

/-- Embedding of `KnobScripterWidget.updateUnsavedKnobs` (lines 768-794): with
no node it returns 0 at once, leaving the dict alone. Otherwise the current
knob's editor text is written into the dict, then every entry whose knob no
longer exists or whose stored text equals the knob's current value is
deleted; the number of surviving entries is returned. The trailing loop
re-decorating the dropdown labels is UI only and elided. -/
def updateUnsavedKnobs (node : Option Node) (knob : String) (bufferText : String)
    (unsaved : List (String × String)) : List (String × String) × Nat :=
  match node with
  | none => (unsaved, 0)
  | some n =>
      let unsaved := updateAssoc unsaved knob bufferText
      let remaining := unsaved.filter (fun kv =>
        (n.knob kv.1).isSome && (getKnobValue n kv.1 != some kv.2))
      (remaining, remaining.length)

/-- File-system slice for one script slot: optional content of the canonical
`<script>.py` file and of its `<script>.py.autosave` shadow. -/
structure ScriptFS where
  canonical : Option String
  shadow : Option String
deriving DecidableEq, Repr

/-- Embedding of `KnobScripterWidget.saveScriptContents` (lines 1255-1293).
With `temp` the editor text is compared against the canonical file content
(`""` when the file is absent, matching `orig_content = ""`): a difference
writes the shadow, equality removes any shadow ("Nothing to save"); the
early branch removes a shadow when the canonical file is absent and the
editor is empty. Without `temp` the canonical file is overwritten with the
editor text and any shadow is removed. The `setScriptModified(False)` call
and the scroll/cursor bookkeeping of the non-temp branch are tracked by the
callers that need them. -/
def saveScriptContents (fs : ScriptFS) (content : String) (temp : Bool) : ScriptFS :=
  if temp then
    match fs.canonical with
    | none =>
        if content = "" ∧ fs.shadow.isSome then
          { fs with shadow := none }
        else if content ≠ "" then
          { fs with shadow := some content }
        else
          { fs with shadow := none }
    | some orig =>
        if content ≠ orig then
          { fs with shadow := some content }
        else
          { fs with shadow := none }
  else
    { canonical := some content, shadow := none }

/-- Outcome of `loadScriptContents`: the file-system slice afterwards, the
editor text, the script-modified flag, whether a confirmation dialog was
raised, and whether the call returned leaving the editor as it was. -/
structure LoadScriptResult where
  fs : ScriptFS
  buffer : String
  modified : Bool
  confirmRequested : Bool
  aborted : Bool
deriving DecidableEq, Repr

/-- Embedding of `KnobScripterWidget.loadScriptContents` (lines 1167-1253).
Branch 1 (shadow present, `pyOnly` false): the shadow content becomes the
editor text and the script is marked modified, with no dialog. Branch 2
(canonical `.py` present): with `check`, a differing non-blank editor text
raises a Yes/No confirmation whose No aborts; otherwise any shadow is
removed and the canonical content becomes the editor text, unmodified.
Branch 3 (only a shadow, `pyOnly` true): a Yes/No dialog asks to clear the
editor; Yes removes the shadow, clears the editor and reloads with
`check=False` (the dropdown refresh that re-targets the first enumerated
script is elided: the reload is modelled on the same script slot, which
after removal of its shadow lands in the empty branch). Branch 4: an empty
editor, unmodified. Scroll/cursor restoration is UI bookkeeping and
elided. `fuel` bounds the single recursive call of branch 3. -/
def loadScriptContents : Nat → ScriptFS → Bool → Bool → String → Bool → Bool → LoadScriptResult
  | fuel, fs, check, pyOnly, currentText, modified, reply =>
    if fs.shadow.isSome ∧ ¬ pyOnly then
      { fs := fs, buffer := fs.shadow.getD "", modified := true,
        confirmRequested := false, aborted := false }
    else if fs.canonical.isSome then
      let content := fs.canonical.getD ""
      if check ∧ currentText ≠ content ∧ currentText.trim ≠ "" then
        if reply then
          { fs := { fs with shadow := none }, buffer := content, modified := false,
            confirmRequested := true, aborted := false }
        else
          { fs := fs, buffer := currentText, modified := modified,
            confirmRequested := true, aborted := true }
      else
        { fs := { fs with shadow := none }, buffer := content, modified := false,
          confirmRequested := false, aborted := false }
    else if fs.shadow.isSome then
      if reply then
        match fuel with
        | 0 =>
            { fs := { fs with shadow := none }, buffer := "", modified := modified,
              confirmRequested := true, aborted := false }
        | fuel' + 1 =>
            let r := loadScriptContents fuel' { fs with shadow := none } false false "" modified reply
            { r with confirmRequested := true }
      else
        { fs := fs, buffer := currentText, modified := modified,
          confirmRequested := true, aborted := true }
    else
      { fs := fs, buffer := "", modified := false,
        confirmRequested := false, aborted := false }

/-- Embedding of `os.remove` on a folder modelled as its list of file names:
removing an absent file is an error (`FileNotFoundError`). -/
def osRemove (dir : List String) (name : String) : Except String (List String) :=
  if name ∈ dir then .ok (dir.erase name) else .error "FileNotFoundError"

/-- Embedding of `KnobScripterWidget.deleteScript` (lines 1295-1322) over a
folder of file names. With `check`, a Yes/No confirmation is raised and No
returns `False` leaving the folder alone. Otherwise the `.autosave` shadow
and the canonical file are each removed only when present (each removal is
guarded by `os.path.isfile`), and `True` is returned. -/
def deleteScript (dir : List String) (script : String) (check reply : Bool) :
    Except String (List String × Bool) :=
  if check ∧ ¬ reply then
    .ok (dir, false)
  else
    match (if (script ++ ".autosave") ∈ dir then osRemove dir (script ++ ".autosave")
           else .ok dir) with
    | .error e => .error e
    | .ok dir1 =>
        match (if script ∈ dir1 then osRemove dir1 script else .ok dir1) with
        | .error e => .error e
        | .ok dir2 => .ok (dir2, true)

/-- Success test on a file-system operation result (the operation ran without
raising). -/
def exceptOk {α : Type} : Except String α → Bool
  | .ok _ => true
  | .error _ => false

/-- Stable insertion used to embed Python's `sorted` on strings. -/
def insertSorted (x : String) : List String → List String
  | [] => [x]
  | y :: ys => if y < x then y :: insertSorted x ys else x :: y :: ys

/-- Embedding of Python's `sorted` on a list of strings. -/
def sortStrings : List String → List String
  | [] => []
  | x :: xs => insertSorted x (sortStrings xs)

/-- Embedding of the `defaultScripts` list of `updateScriptsDropdown`. -/
def defaultScripts : List String := ["Untitled.py"]

/-- Script entries (item data) produced by `updateScriptsDropdown`
(lines 1064-1123): with no `.py` file found every default script is offered
anyway; otherwise the defaults that exist (as file or as shadow) come
first, then the sorted non-default `.py` files. The `(*)` marker only
changes the display text, never the item data. -/
def scriptItems (dirList : List String) : List String :=
  let found_scripts := sortStrings (dirList.filter (fun f => f.endsWith ".py"))
  let found_temp_scripts := dirList.filter (fun f => f.endsWith ".py.autosave")
  if found_scripts.isEmpty then
    defaultScripts
  else
    defaultScripts.filter (fun s => (s ++ ".autosave") ∈ found_temp_scripts ∨ s ∈ found_scripts)
      ++ (found_scripts.filter (fun s => s ∉ defaultScripts)).map
          (fun s => (s.splitOn "/").getLastD s)

/-- Embedding of `KnobScripterWidget.updateScriptsDropdown` item data: the
script entries followed by the four non-document sentinel entries. -/
def updateScriptsDropdown (dirList : List String) : List String :=
  scriptItems dirList ++ ["create new", "create duplicate", "delete script", "open in browser"]

/-- Persisted state record (the JSON file at `config.state_txt_path`), with
exactly the keys `saveScriptState` writes; each is optional since a foreign
or older file may lack it. -/
structure StateDict where
  scroll_pos : Option (List (String × Int))
  cursor_pos : Option (List (String × (Int × Int)))
  last_folder : Option String
  last_script : Option String
  splitter_sizes : Option (List Int)
deriving DecidableEq, Repr

/-- Empty dict `{}` assigned to `self.state_dict` before reading. -/
def emptyStateDict : StateDict :=
  { scroll_pos := none, cursor_pos := none, last_folder := none,
    last_script := none, splitter_sizes := none }

/-- In-memory side of the state persistence: `self.state_dict`,
`self.scrollPos` and `self.cursorPos`. -/
structure ScriptStateMem where
  state_dict : StateDict
  scrollPos : List (String × Int)
  cursorPos : List (String × (Int × Int))
deriving DecidableEq, Repr

/-- Embedding of `KnobScripterWidget.loadScriptState` (lines 1546-1564):
resets `state_dict`, returns at once when the state file is absent, else
loads the file and copies its `scroll_pos` / `cursor_pos` keys (when
present) over the in-memory maps. -/
def loadScriptState (disk : Option StateDict) (mem : ScriptStateMem) : ScriptStateMem :=
  let mem := { mem with state_dict := emptyStateDict }
  match disk with
  | none => mem
  | some d =>
      let mem := { mem with state_dict := d }
      let mem :=
        match d.scroll_pos with
        | some sp => { mem with scrollPos := sp }
        | none => mem
      match d.cursor_pos with
      | some cp => { mem with cursorPos := cp }
      | none => mem

/-- Embedding of `KnobScripterWidget.saveScriptState` (lines 1595-1624): it
first runs `loadScriptState` against the file on disk, then overlays the
current document's scroll value (`saveScrollValue`, keyed by the knob name
in node mode, else by `folder/script`) and cursor pair
(`saveCursorPosValue`, keyed by `folder/script`), rebuilds the record with
the five keys and writes it out in full. The first component of the result
is the record written to disk. -/
def saveScriptState (disk : Option StateDict) (mem : ScriptStateMem)
    (nodeMode : Bool) (knob current_folder current_script : String)
    (scrollValue : Int) (cursorValue : Int × Int) (splitter : List Int) :
    StateDict × ScriptStateMem :=
  let mem := loadScriptState disk mem
  let key := current_folder ++ "/" ++ current_script
  let mem :=
    if nodeMode then { mem with scrollPos := updateAssoc mem.scrollPos knob scrollValue }
    else { mem with scrollPos := updateAssoc mem.scrollPos key scrollValue }
  let mem := { mem with cursorPos := updateAssoc mem.cursorPos key cursorValue }
  let d : StateDict :=
    { scroll_pos := some mem.scrollPos,
      cursor_pos := some mem.cursorPos,
      last_folder := some current_folder,
      last_script := some current_script,
      splitter_sizes := some splitter }
  (d, { mem with state_dict := d })

/-- Sample node for concrete instances: a Grade node with one python-editable
callback knob currently holding the text `"Z"`. -/
def gradeNode : Node :=
  { nodeClass := "Grade", knobs := [{ name := "knobChanged", klass := "String_Knob", value := "Z" }] }

/-- Sample BlinkScript node holding kernel code. -/
def blinkNode : Node :=
  { nodeClass := "BlinkScript",
    knobs := [{ name := "kernelSource", klass := "String_Knob", value := "kernel code" }] }

/-- Script-mode widget state with the given editor text, canonical backing
text and script-modified flag; the remaining fields are fresh defaults. -/
def scriptKS (buffer backing : String) (modified : Bool) : KS :=
  { nodeMode := false, node := none, knob := "knobChanged",
    dropdownKnob := "knobChanged", unsavedKnobs := [], modifiedKnobs := [],
    current_knob_modified := false, current_script_modified := modified,
    toAutosave := false, bufferText := buffer, scriptBacking := backing,
    hostModified := false }

/-- Node-mode widget state bound to `n`, editing `knob`, with the given editor
text, unsaved-knobs dict and knob-modified flag. -/
def nodeKS (n : Node) (knob buffer : String) (unsaved : List (String × String))
    (modified : Bool) : KS :=
  { nodeMode := true, node := some n, knob := knob, dropdownKnob := knob,
    unsavedKnobs := unsaved, modifiedKnobs := [], current_knob_modified := modified,
    current_script_modified := false, toAutosave := false, bufferText := buffer,
    scriptBacking := "", hostModified := false }

/-! Helper lemmas about the dict and node operations. -/

theorem lookupAssoc_updateAssoc_self {α : Type} (m : List (String × α)) (k : String) (v : α) :
    lookupAssoc (updateAssoc m k v) k = some v := by
  induction m with
  | nil => simp [updateAssoc, lookupAssoc]
  | cons h t ih =>
      obtain ⟨k', v'⟩ := h
      by_cases hk : k' = k
      · simp [updateAssoc, hk, lookupAssoc]
      · simp [updateAssoc, hk, lookupAssoc, ih]

theorem lookupAssoc_updateAssoc_ne {α : Type} (m : List (String × α)) (k k' : String) (v : α)
    (h : k' ≠ k) :
    lookupAssoc (updateAssoc m k v) k' = lookupAssoc m k' := by
  induction m with
  | nil => simp [updateAssoc, lookupAssoc, h, Ne.symm h]
  | cons hd t ih =>
      obtain ⟨k0, v0⟩ := hd
      by_cases hk : k0 = k
      · subst hk
        simp [updateAssoc, lookupAssoc, Ne.symm h]
      · simp only [updateAssoc, if_neg hk, lookupAssoc]
        by_cases hk' : k0 = k'
        · simp [hk']
        · simp [hk', ih]

theorem getKnobValue_eq (n : Node) (k : String) :
    getKnobValue n k = (n.knob k).map Knob.value := by
  simp [getKnobValue]

theorem Node.knob_setKnobValue_self (n : Node) (name v : String) :
    (n.setKnobValue name v).knob name = (n.knob name).map (fun k => { k with value := v }) := by
  obtain ⟨c, ks⟩ := n
  induction ks with
  | nil => rfl
  | cons k t ih =>
      by_cases hk : k.name = name
      · simp [Node.setKnobValue, Node.knob, List.find?_cons, hk]
      · simpa [Node.setKnobValue, Node.knob, List.find?_cons, hk] using ih

theorem getKnobValue_setKnobValue (n : Node) (name v : String)
    (h : (n.knob name).isSome) :
    getKnobValue (n.setKnobValue name v) name = some v := by
  obtain ⟨k, hk⟩ := Option.isSome_iff_exists.mp h
  rw [getKnobValue_eq, Node.knob_setKnobValue_self, hk]
  rfl

/-! Claim theorems. -/

/-- C9: the language hint is exactly `"blink"` for an existing knob named
`kernelSource` on a node of class `BlinkScript`; exactly `"python"` for an
existing non-blink knob whose name is one of the lifecycle-callback default
knob names or whose declared class is one of the python knob classes; and
no language (`none`) otherwise, in particular when the knob does not exist
on the node. -/
theorem C9_knobLanguage_rules (node : Node) (knobName : String) :
    (node.knob knobName = none → knobLanguage node knobName = none) ∧
    (∀ k, node.knob knobName = some k →
      ((knobLanguage node knobName = some "blink" ↔
          knobName = "kernelSource" ∧ node.nodeClass = "BlinkScript") ∧
       (knobLanguage node knobName = some "python" ↔
          (¬ (knobName = "kernelSource" ∧ node.nodeClass = "BlinkScript") ∧
           (knobName ∈ defaultKnobs ∨ k.klass ∈ python_knob_classes))) ∧
       (knobLanguage node knobName = none ↔
          (¬ (knobName = "kernelSource" ∧ node.nodeClass = "BlinkScript") ∧
           ¬ (knobName ∈ defaultKnobs ∨ k.klass ∈ python_knob_classes))))) := by
  constructor
  · intro h
    simp [knobLanguage, h]
  · intro k hk
    by_cases hb : knobName = "kernelSource" ∧ node.nodeClass = "BlinkScript"
    · obtain ⟨h1, h2⟩ := hb
      subst h1
      simp [knobLanguage, hk, h2]
    · by_cases hp : knobName ∈ defaultKnobs ∨ k.klass ∈ python_knob_classes
      · simp [knobLanguage, hk, hb, hp]
      · simp [knobLanguage, hk, hb, hp]

/-- Witness for C9 at a concrete input: the kernelSource knob of a
BlinkScript node gets the blink hint. -/
theorem C9_witness :
    knobLanguage blinkNode "kernelSource" = some "blink" :=
  ((C9_knobLanguage_rules blinkNode "kernelSource").2
      { name := "kernelSource", klass := "String_Knob", value := "kernel code" }
      (by decide)).1.mpr ⟨rfl, rfl⟩

/-- C10 counterexample: with the node deleted, `updateUnsavedKnobs` returns 0
yet leaves a stale entry behind: the remaining key names no knob of any
existing node and the returned value (0) differs from the number of
remaining entries (1). -/
theorem C10_counterexample :
    (updateUnsavedKnobs none "knobChanged" "x" [("knobChanged", "y")]).2 = 0 ∧
    (updateUnsavedKnobs none "knobChanged" "x" [("knobChanged", "y")]).1.length = 1 :=
  ⟨rfl, rfl⟩

/-- C10 (amended): when the node still exists, every entry surviving
`updateUnsavedKnobs` names an existing knob whose stored text differs from
the knob's current value, and the returned value is the number of surviving
entries; when the node no longer exists the function returns 0 and leaves
the dict untouched (possibly with stale entries). -/
theorem C10_updateUnsavedKnobs (node : Option Node) (knob bufferText : String)
    (unsaved : List (String × String)) :
    (node = none → updateUnsavedKnobs node knob bufferText unsaved = (unsaved, 0)) ∧
    (∀ n, node = some n →
      (∀ kv ∈ (updateUnsavedKnobs node knob bufferText unsaved).1,
         (n.knob kv.1).isSome ∧ getKnobValue n kv.1 ≠ some kv.2) ∧
      (updateUnsavedKnobs node knob bufferText unsaved).2 =
        (updateUnsavedKnobs node knob bufferText unsaved).1.length) := by
  constructor
  · rintro rfl
    rfl
  · rintro n rfl
    constructor
    · intro kv hkv
      have hkv' : kv ∈ (updateAssoc unsaved knob bufferText).filter
          (fun kv => (n.knob kv.1).isSome && (getKnobValue n kv.1 != some kv.2)) := hkv
      have hp := List.of_mem_filter hkv'
      rw [Bool.and_eq_true] at hp
      exact ⟨hp.1, by simpa using hp.2⟩
    · rfl

/-- Witness for C10 (amended) at a concrete input: the returned value is the
number of surviving entries. -/
theorem C10_witness :
    (updateUnsavedKnobs (some gradeNode) "knobChanged" "X" []).2 =
      (updateUnsavedKnobs (some gradeNode) "knobChanged" "X" []).1.length :=
  ((C10_updateUnsavedKnobs (some gradeNode) "knobChanged" "X" []).2 gradeNode rfl).2

/-- C1 counterexample: in script mode, mutating the buffer away from the
backing value and then back to it leaves the dirty flag raised even though
the buffer again equals the last-known backing value, so the flag is not
re-evaluated to `buffer != lastKnownBackingValue` after every mutation. -/
theorem C1_counterexample :
    (mutateBuffer (mutateBuffer (scriptKS "a" "a" false) "b") "a").dirty = true ∧
    (mutateBuffer (mutateBuffer (scriptKS "a" "a" false) "b") "a").bufferText =
      (mutateBuffer (mutateBuffer (scriptKS "a" "a" false) "b") "a").scriptBacking :=
  ⟨rfl, rfl⟩

/-- C1 (amended): the dirty flag moves only upward under buffer mutations: a
mutation never clears it; in script mode any mutation raises it; in node
mode a mutation from a clean state raises it exactly when the new buffer
differs from the knob's current backing value. (The flag is cleared by
load and save operations, never by a buffer mutation.) -/
theorem dirty_mutateBuffer (s : KS) (t : String) :
    (mutateBuffer s t).dirty =
      (if s.nodeMode then
        s.current_knob_modified ||
          (match s.getKnob s.knob with
           | none => false
           | some v => v != t)
       else true) := by
  obtain ⟨nm, nd, kb, dk, uk, mk, ckm, csm, ta, bt, sb, hmod⟩ := s
  cases nm
  · cases csm <;> rfl
  · cases ckm
    · rcases hv : KS.getKnob ⟨true, nd, kb, dk, uk, mk, false, csm, ta, bt, sb, hmod⟩ kb
          with _ | v
      · have hv' : KS.getKnob ⟨true, nd, kb, dk, uk, mk, false, csm, ta, t, sb, hmod⟩ kb
            = none := hv
        simp [mutateBuffer, setModified, KS.dirty, hv, hv']
      · have hv' : KS.getKnob ⟨true, nd, kb, dk, uk, mk, false, csm, ta, t, sb, hmod⟩ kb
            = some v := hv
        by_cases he : v = t
        · simp [mutateBuffer, setModified, KS.dirty, hv, hv', he]
        · simp [mutateBuffer, setModified, setKnobModified, KS.dirty, hv, hv', he]
    · rfl

/-- C1 (amended): after a completed silent load of the canonical `.py` file
the dirty flag is false and the buffer equals the freshly read canonical
(last-known backing) value; a subsequent buffer mutation raises the flag —
in script mode any mutation does, in node mode exactly when the new buffer
differs from the knob's current value, which a single-character change from
a clean, equal state guarantees — but mutations only ever latch the flag
upward: none clears it, so `dirty` is not re-evaluated to
`buffer != lastKnownBackingValue` after every mutation. -/
theorem C1_dirty_tracking (s : KS) (t : String) (fuel : Nat) (fs : ScriptFS)
    (pyOnly modified reply : Bool) (currentText c : String) :
    (fs.shadow = none → fs.canonical = some c →
      loadScriptContents fuel fs false pyOnly currentText modified reply =
        { fs := fs, buffer := c, modified := false, confirmRequested := false,
          aborted := false }) ∧
    (s.dirty = true → (mutateBuffer s t).dirty = true) ∧
    (s.nodeMode = false → (mutateBuffer s t).dirty = true) ∧
    (∀ v, s.nodeMode = true → s.dirty = false → s.getKnob s.knob = some v →
      (mutateBuffer s t).dirty = (v != t)) := by
  refine ⟨?_, ?_, ?_, ?_⟩
  · intro hsh hc
    obtain ⟨cc, sh⟩ := fs
    have hsh' : sh = none := hsh
    have hc' : cc = some c := hc
    subst hsh'
    subst hc'
    rw [loadScriptContents.eq_def]
    simp
  · intro hd
    rw [dirty_mutateBuffer]
    by_cases hm : s.nodeMode
    · simp only [KS.dirty, hm, if_true] at hd
      simp [hm, hd]
    · simp [hm]
  · intro hm
    rw [dirty_mutateBuffer, hm]
    simp
  · intro v hm hd hv
    rw [dirty_mutateBuffer, hm]
    simp only [KS.dirty, hm, if_true] at hd
    simp [hd, hv]

/-- Witness for C1 (amended) at concrete inputs: a silent load of a canonical
file yields a clean state with the canonical text as buffer, and a
script-mode mutation raises the dirty flag. -/
theorem C1_witness :
    loadScriptContents 0 ⟨some "print(1)", none⟩ false false "x" false false =
      { fs := ⟨some "print(1)", none⟩, buffer := "print(1)", modified := false,
        confirmRequested := false, aborted := false } ∧
    (mutateBuffer (scriptKS "print(1)" "print(1)" false) "print(2)").dirty = true :=
  ⟨(C1_dirty_tracking (scriptKS "print(1)" "print(1)" false) "print(2)" 0
      ⟨some "print(1)", none⟩ false false false "x" "print(1)").1 rfl rfl,
   (C1_dirty_tracking (scriptKS "print(1)" "print(1)" false) "print(2)" 0
      ⟨some "print(1)", none⟩ false false false "x" "print(1)").2.2.1 rfl⟩

/-- C2: after an autosave pass (`saveScriptContents` with `temp=True`) the
shadow file exists iff the editor buffer differs from the canonical file's
content (an absent canonical file reads as the empty string, matching the
code's `orig_content = ""` default); when buffer and canonical content are
equal any existing shadow is removed; the canonical file is never touched
by the autosave pass. -/
theorem C2_autosave_shadow (fs : ScriptFS) (content : String) :
    ((saveScriptContents fs content true).shadow.isSome ↔ content ≠ fs.canonical.getD "") ∧
    (content = fs.canonical.getD "" → (saveScriptContents fs content true).shadow = none) ∧
    (saveScriptContents fs content true).canonical = fs.canonical := by
  obtain ⟨c, sh⟩ := fs
  cases c with
  | none =>
      by_cases h0 : content = ""
      · subst h0
        cases sh <;> simp [saveScriptContents]
      · simp [saveScriptContents, h0]
  | some orig =>
      by_cases h : content = orig
      · subst h
        simp [saveScriptContents]
      · simp [saveScriptContents, h]

/-- Witness for C2 at a concrete input: a buffer equal to the canonical
content deletes the existing shadow. -/
theorem C2_witness :
    (saveScriptContents ⟨some "print(1)", some "old"⟩ "print(1)" true).shadow = none :=
  (C2_autosave_shadow ⟨some "print(1)", some "old"⟩ "print(1)").2.1 rfl

/-- C3: loading a File document that has an autosave shadow, with `pyOnly`
not requested, silently adopts the shadow: no confirmation is requested,
the shadow content becomes the buffer, the document is marked modified, and
the file system is left as it was. -/
theorem C3_load_shadow_wins (fuel : Nat) (fs : ScriptFS) (check : Bool)
    (currentText : String) (modified reply : Bool) (b : String)
    (h : fs.shadow = some b) :
    loadScriptContents fuel fs check false currentText modified reply =
      { fs := fs, buffer := b, modified := true, confirmRequested := false,
        aborted := false } := by
  rw [loadScriptContents.eq_def]
  simp [h]

/-- Witness for C3 at a concrete input: canonical value `"A"`, autosave shadow
`"B"`, loading yields buffer `"B"` and the modified flag. -/
theorem C3_witness :
    loadScriptContents 0 ⟨some "A", some "B"⟩ false false "" false false =
      { fs := ⟨some "A", some "B"⟩, buffer := "B", modified := true,
        confirmRequested := false, aborted := false } :=
  C3_load_shadow_wins 0 ⟨some "A", some "B"⟩ false "" false false "B" rfl

/-- C4: saving a knob with `check` when the freshly-read canonical knob value
differs from the editor buffer raises a binary confirmation whatever the
reply; and a declined confirmation aborts: nothing is written to the
backing store, the buffer is unchanged and still marked unsaved, and the
`unsavedKnobs` record is kept. -/
theorem C4_save_conflict_decline (s : KS) (v : String)
    (hv : s.getKnob s.dropdownKnob = some v) (hne : v ≠ s.bufferText) :
    (∀ reply, (saveKnobValue s true reply).confirmRequested = true) ∧
    (saveKnobValue s true false).wrote = false ∧
    (saveKnobValue s true false).state.node = s.node ∧
    (saveKnobValue s true false).state.bufferText = s.bufferText ∧
    (saveKnobValue s true false).state.current_knob_modified = s.current_knob_modified ∧
    (saveKnobValue s true false).state.modifiedKnobs = s.modifiedKnobs ∧
    (saveKnobValue s true false).state.unsavedKnobs = s.unsavedKnobs := by
  refine ⟨?_, ?_, ?_, ?_, ?_, ?_, ?_⟩
  · intro reply
    cases reply <;> simp [saveKnobValue, hv, hne]
  all_goals simp [saveKnobValue, hv, hne]

/-- Witness for C4 at a concrete input: declining the conflict confirmation
keeps the unsaved record. -/
theorem C4_witness :
    (saveKnobValue (nodeKS gradeNode "knobChanged" "X" [("knobChanged", "X")] true)
        true false).state.unsavedKnobs = [("knobChanged", "X")] :=
  (C4_save_conflict_decline
      (nodeKS gradeNode "knobChanged" "X" [("knobChanged", "X")] true) "Z"
      (by decide) (by decide)).2.2.2.2.2.2

/-- C5 counterexample: two different on-disk state records combined with an
identical in-memory state produce different written records, so the save
does read the record back from disk before writing — a read-modify-write —
contradicting the claim that the save does not perform one. -/
theorem C5_counterexample :
    (saveScriptState (some { emptyStateDict with scroll_pos := some [("other/x.py", 5)] })
        ⟨emptyStateDict, [], []⟩ false "knobChanged" "scripts" "Untitled.py" 0 (0, 0) []).1 ≠
    (saveScriptState none ⟨emptyStateDict, [], []⟩ false "knobChanged" "scripts" "Untitled.py"
        0 (0, 0) []).1 := by
  decide

/-- C5 (amended): `saveScriptState` performs a read-modify-write: it re-reads
the state record from disk, overlays the current document's scroll and
cursor entries plus the current folder, script and splitter, and rewrites
the record in full; scroll entries read from disk under other keys survive
into the written record. -/
theorem C5_saveScriptState_merge (d : StateDict) (sp : List (String × Int))
    (mem : ScriptStateMem) (knob folder script : String) (sv : Int)
    (cv : Int × Int) (spl : List Int)
    (hd : d.scroll_pos = some sp) :
    (saveScriptState (some d) mem false knob folder script sv cv spl).1.last_folder
        = some folder ∧
    (saveScriptState (some d) mem false knob folder script sv cv spl).1.last_script
        = some script ∧
    (saveScriptState (some d) mem false knob folder script sv cv spl).1.splitter_sizes
        = some spl ∧
    (∀ k v, k ≠ folder ++ "/" ++ script → lookupAssoc sp k = some v →
      lookupAssoc
        (((saveScriptState (some d) mem false knob folder script sv cv spl).1.scroll_pos).getD [])
        k = some v) ∧
    lookupAssoc
      (((saveScriptState (some d) mem false knob folder script sv cv spl).1.scroll_pos).getD [])
      (folder ++ "/" ++ script) = some sv := by
  obtain ⟨dsp, dcp, dlf, dls, dss⟩ := d
  have hd' : dsp = some sp := hd
  subst hd'
  have hscroll :
      (saveScriptState (some ⟨some sp, dcp, dlf, dls, dss⟩) mem false knob folder script
          sv cv spl).1.scroll_pos
        = some (updateAssoc sp (folder ++ "/" ++ script) sv) := by
    cases dcp <;> rfl
  refine ⟨?_, ?_, ?_, ?_, ?_⟩
  · cases dcp <;> rfl
  · cases dcp <;> rfl
  · cases dcp <;> rfl
  · intro k v hk hv
    rw [hscroll]
    simpa [lookupAssoc_updateAssoc_ne sp (folder ++ "/" ++ script) k sv hk] using hv
  · rw [hscroll]
    simp [lookupAssoc_updateAssoc_self]

/-- Witness for C5 (amended) at a concrete input: a foreign scroll entry read
from disk survives the save. -/
theorem C5_witness :
    lookupAssoc
      (((saveScriptState (some { emptyStateDict with scroll_pos := some [("a/b.py", 7)] })
          ⟨emptyStateDict, [], []⟩ false "knobChanged" "scripts" "Untitled.py" 3 (0, 0)
          []).1.scroll_pos).getD [])
      "a/b.py" = some 7 :=
  (C5_saveScriptState_merge { emptyStateDict with scroll_pos := some [("a/b.py", 7)] }
      [("a/b.py", 7)] ⟨emptyStateDict, [], []⟩ "knobChanged" "scripts" "Untitled.py" 3 (0, 0)
      [] rfl).2.2.2.1 "a/b.py" 7 (by decide) rfl

/-- C6 counterexample: with exactly one dirty record the bulk reload already
requests the aggregate confirmation, although the claim allows one only
when more than one document is dirty. -/
theorem C6_counterexample :
    (nodeKS gradeNode "knobChanged" "x" [("knobChanged", "y")] true).unsavedKnobs.length
        = 1 ∧
    (loadAllKnobValues (nodeKS gradeNode "knobChanged" "x" [("knobChanged", "y")] true)
        true).2 = true :=
  ⟨rfl, rfl⟩

/-- C6 (amended): bulk reload requests the single aggregate confirmation
whenever at least one record is dirty (not only when more than one);
declining aborts the whole batch with no effect on the state; otherwise —
accepted, or nothing dirty — every unsaved record is discarded. -/
theorem C6_loadAllKnobValues (s : KS) (reply : Bool) :
    ((loadAllKnobValues s reply).2 = true ↔ s.unsavedKnobs ≠ []) ∧
    (s.unsavedKnobs ≠ [] → reply = false → (loadAllKnobValues s reply).1 = s) ∧
    (reply = true ∨ s.unsavedKnobs = [] →
      (loadAllKnobValues s reply).1 = { s with unsavedKnobs := [] }) := by
  rcases hu : s.unsavedKnobs with _ | ⟨kv, rest⟩ <;> cases reply <;>
    simp [loadAllKnobValues, hu]

/-- Witness for C6 (amended) at a concrete input: declining with one dirty
record leaves the state untouched. -/
theorem C6_witness :
    (loadAllKnobValues (nodeKS gradeNode "knobChanged" "x" [("knobChanged", "y")] true)
        false).1 = nodeKS gradeNode "knobChanged" "x" [("knobChanged", "y")] true :=
  (C6_loadAllKnobValues (nodeKS gradeNode "knobChanged" "x" [("knobChanged", "y")] true)
      false).2.1 (by decide) rfl

theorem getKnob_saveKnobValueCommit (s : KS) (dv edited : String)
    (h : (s.getKnob dv).isSome) :
    (saveKnobValueCommit s dv edited).getKnob dv = some edited := by
  rcases hs : s.node with _ | n
  · simp [KS.getKnob, hs] at h
  · have hkn : (n.knob dv).isSome := by
      simp only [KS.getKnob, hs, Option.some_bind] at h
      rcases hkb : n.knob dv with _ | k
      · rw [getKnobValue_eq, hkb] at h
        simp at h
      · rfl
    have hnode : (saveKnobValueCommit s dv edited).node = some (n.setKnobValue dv edited) := by
      simp only [saveKnobValueCommit, setKnobModified, hs]
      repeat' split
      all_goals rfl
    simp only [KS.getKnob, hnode, Option.some_bind]
    exact getKnobValue_setKnobValue n dv edited hkn

theorem saveKnobValue_wrote_state (s : KS) (check reply : Bool) (v : String)
    (hv : s.getKnob s.dropdownKnob = some v)
    (hw : (saveKnobValue s check reply).wrote = true) :
    (saveKnobValue s check reply).state =
      saveKnobValueCommit { s with knob := s.dropdownKnob } s.dropdownKnob s.bufferText := by
  simp only [saveKnobValue, hv] at hw ⊢
  by_cases hc : check = true ∧ v ≠ s.bufferText
  · by_cases hr : reply = true
    · simp [hc, hr]
    · simp [hc, hr] at hw
  · simp [hc]

/-- C7: write-then-read round trip for both backing-store variants. File
variant: a full save (`saveScriptContents` with `temp=False`) of buffer `x`
followed by a load of the same script yields buffer `x` again (the editor
still holds `x`, so no conflict branch interferes). Knob variant: whenever
`saveKnobValue` actually wrote, reading the written knob back yields the
editor text that was saved. -/
theorem C7_write_read_roundtrip :
    (∀ (fs : ScriptFS) (x : String) (fuel : Nat) (check pyOnly modified reply : Bool),
      (loadScriptContents fuel (saveScriptContents fs x false) check pyOnly x modified
          reply).buffer = x) ∧
    (∀ (s : KS) (check reply : Bool),
      (saveKnobValue s check reply).wrote = true →
      (saveKnobValue s check reply).state.getKnob s.dropdownKnob = some s.bufferText) := by
  constructor
  · intro fs x fuel check pyOnly modified reply
    rw [loadScriptContents.eq_def]
    simp [saveScriptContents]
  · intro s check reply hw
    rcases hv : s.getKnob s.dropdownKnob with _ | v
    · simp [saveKnobValue, hv] at hw
    · rw [saveKnobValue_wrote_state s check reply v hv hw]
      have hv' : (KS.getKnob { s with knob := s.dropdownKnob } s.dropdownKnob).isSome := by
        rw [show KS.getKnob { s with knob := s.dropdownKnob } s.dropdownKnob
              = s.getKnob s.dropdownKnob from rfl, hv]
        rfl
      exact getKnob_saveKnobValueCommit { s with knob := s.dropdownKnob } s.dropdownKnob
        s.bufferText hv'

/-- Witness for C7: a concrete knob save followed by a read returns the saved
text. -/
theorem C7_witness :
    (saveKnobValue (nodeKS gradeNode "knobChanged" "new code" [] false) false true).state.getKnob
      "knobChanged" = some "new code" :=
  C7_write_read_roundtrip.2 (nodeKS gradeNode "knobChanged" "new code" [] false) false true rfl

theorem mem_insertSorted (x y : String) (l : List String) :
    y ∈ insertSorted x l ↔ y = x ∨ y ∈ l := by
  induction l with
  | nil => simp [insertSorted]
  | cons a t ih =>
      by_cases h : a < x
      · simp only [insertSorted, if_pos h, List.mem_cons, ih]
        tauto
      · simp only [insertSorted, if_neg h, List.mem_cons]

theorem mem_sortStrings (y : String) (l : List String) :
    y ∈ sortStrings l ↔ y ∈ l := by
  induction l with
  | nil => simp [sortStrings]
  | cons a t ih => simp [sortStrings, mem_insertSorted, ih]

/-- C8 counterexample: deleting the default script `Untitled.py` succeeds and
empties the folder, yet the re-enumeration still lists `Untitled.py`: the
enumeration always offers the default placeholder even when no file backs
it. -/
theorem C8_counterexample :
    deleteScript ["Untitled.py"] "Untitled.py" true true = .ok ([], true) ∧
    "Untitled.py" ∈ scriptItems [] := by
  refine ⟨by rfl, ?_⟩
  simp [scriptItems, sortStrings, defaultScripts]

/-- C8 (amended): a confirmed deletion always succeeds — removing an absent
autosave (or canonical) file is a no-op, never a failure — and removes both
the canonical file and the `.autosave` shadow when present; re-enumerating
the folder afterwards no longer lists the script, except for the default
placeholder `Untitled.py`, which the enumeration always offers even when no
file backs it. (`hplain`: folder entries are plain file names, with no
path separator.) -/
theorem C8_deleteScript (dir : List String) (script : String)
    (hnd : dir.Nodup) (hplain : ∀ f ∈ dir, (f.splitOn "/").getLastD f = f) :
    exceptOk (deleteScript dir script true true) = true ∧
    (∀ d, deleteScript dir script true true = .ok (d, true) →
      script ∉ d ∧ (script ++ ".autosave") ∉ d ∧
      (script ≠ "Untitled.py" → script ∉ scriptItems d)) := by
  classical
  obtain ⟨d1, hd1e, hd1sub, hd1nd, hd1a⟩ :
      ∃ d1, (if (script ++ ".autosave") ∈ dir then osRemove dir (script ++ ".autosave")
              else Except.ok dir) = .ok d1 ∧ (∀ x, x ∈ d1 → x ∈ dir) ∧ d1.Nodup ∧
            (script ++ ".autosave") ∉ d1 := by
    by_cases h : (script ++ ".autosave") ∈ dir
    · refine ⟨dir.erase (script ++ ".autosave"), by simp [osRemove, h], ?_, ?_, ?_⟩
      · intro x hx
        exact (List.erase_sublist _ _).subset hx
      · exact (List.erase_sublist _ _).nodup hnd
      · intro hc
        exact ((List.Nodup.mem_erase_iff hnd).mp hc).1 rfl
    · exact ⟨dir, by simp [h], fun x hx => hx, hnd, h⟩
  obtain ⟨d2, hd2e, hd2sub, hd2s, hd2a⟩ :
      ∃ d2, (if script ∈ d1 then osRemove d1 script else Except.ok d1) = .ok d2 ∧
            (∀ x, x ∈ d2 → x ∈ d1) ∧ script ∉ d2 ∧ (script ++ ".autosave") ∉ d2 := by
    by_cases h : script ∈ d1
    · refine ⟨d1.erase script, by simp [osRemove, h], ?_, ?_, ?_⟩
      · intro x hx
        exact (List.erase_sublist _ _).subset hx
      · intro hc
        exact ((List.Nodup.mem_erase_iff hd1nd).mp hc).1 rfl
      · intro hc
        exact hd1a ((List.erase_sublist _ _).subset hc)
    · exact ⟨d1, by simp [h], fun x hx => hx, h, hd1a⟩
  have hstep : deleteScript dir script true true = .ok (d2, true) := by
    simp only [deleteScript, hd1e, hd2e]
    simp
  refine ⟨by rw [hstep]; rfl, ?_⟩
  intro d hd
  rw [hstep] at hd
  have hd' : d2 = d := by
    injection hd with h
    exact congrArg Prod.fst h
  subst hd'
  refine ⟨hd2s, hd2a, ?_⟩
  intro hne hmem
  simp only [scriptItems] at hmem
  split at hmem
  · rw [show defaultScripts = ["Untitled.py"] from rfl] at hmem
    simp at hmem
    exact hne hmem
  · rcases List.mem_append.mp hmem with hml | hmr
    · have := List.of_mem_filter hml
      have hmd : script ∈ defaultScripts := List.mem_of_mem_filter hml
      rw [show defaultScripts = ["Untitled.py"] from rfl] at hmd
      simp at hmd
      exact hne hmd
    · obtain ⟨s, hsf, hseq⟩ := List.mem_map.mp hmr
      have hsfound : s ∈ sortStrings (d2.filter (fun f => f.endsWith ".py")) :=
        List.mem_of_mem_filter hsf
      have hsd2 : s ∈ d2 :=
        List.mem_of_mem_filter ((mem_sortStrings s _).mp hsfound)
      have hsdir : s ∈ dir := hd1sub s (hd2sub s hsd2)
      have : script = s := by
        rw [hplain s hsdir] at hseq
        exact hseq.symm
      rw [this] at hd2s
      exact hd2s hsd2

/-- Witness for C8 (amended) at a concrete input: deleting `foo.py` from an
already-empty folder succeeds as a no-op, and the enumeration afterwards
does not list it. -/
theorem C8_witness : "foo.py" ∉ scriptItems [] :=
  (((C8_deleteScript [] "foo.py" (by simp) (by simp)).2 [] (by rfl)).2.2) (by decide)

end KnobScripter
